import Mathlib

/-!
Verification development for the k3w-screensaver weather pipeline.

The definitions below are a shallow embedding of the Python sources
(src/screensaver/wttr.py, icons.py, renderer.py).  Dynamic JSON values
are modelled by the inductive `Json`; a Python expression that can raise
an exception is modelled by an `Option`- or `Except`-valued function,
with `none` / `.error` standing for the raised exception.
-/

namespace Screensaver

/-- Model of a decoded Python JSON value (result of `json.loads`). -/
inductive Json where
  | null : Json
  | bool (b : Bool) : Json
  | num (n : Int) : Json
  | str (s : String) : Json
  | arr (xs : List Json) : Json
  | obj (fs : List (String × Json)) : Json

/-- Association-list lookup for JSON object fields (Python dict lookup;
JSON objects produced by `json.loads` have distinct keys). -/
def lookupField : List (String × Json) → String → Option Json
  | [], _ => none
  | (k2, v) :: rest, k => if k2 = k then some v else lookupField rest k

/-- Python `d.get(key)`: `none` models an `AttributeError` when the value is
not a dict; `some none` models a missing key (Python returns `None`). -/
def dictGet : Json → String → Option (Option Json)
  | .obj fs, k => some (lookupField fs k)
  | _, _ => none

/-- Python `d[key]` subscription with a string key: `none` models a raised
`KeyError` (missing key) or `TypeError` (value is not a dict). -/
def dictItem : Json → String → Option Json
  | .obj fs, k => lookupField fs k
  | _, _ => none

/-- Python `v[0]`: element of a list, first character of a string; anything
else raises (`IndexError` / `KeyError` / `TypeError`), modelled by `none`. -/
def index0 : Json → Option Json
  | .arr (x :: _) => some x
  | .str s =>
    match s.data with
    | c :: _ => some (.str (String.mk [c]))
    | [] => none
  | _ => none

/-- Python `v[:3]`: slicing a list or a string; other values raise
`TypeError`, modelled by `none`. -/
def slice3 : Json → Option (List Json)
  | .arr xs => some (xs.take 3)
  | .str s => some ((s.data.take 3).map (fun c => .str (String.mk [c])))
  | _ => none

/-- Python iteration `for x in v`: lists yield elements, strings yield
1-character strings, dicts yield their keys; other values raise
`TypeError`, modelled by `none`. -/
def asIterList : Json → Option (List Json)
  | .arr xs => some xs
  | .str s => some (s.data.map (fun c => .str (String.mk [c])))
  | .obj fs => some (fs.map (fun p => .str p.1))
  | _ => none

/-- Strip leading and trailing whitespace from a character list
(Python `str.strip()` / Lean `String.trim`, re-implemented structurally). -/
def trimChars (cs : List Char) : List Char :=
  ((cs.dropWhile Char.isWhitespace).reverse.dropWhile Char.isWhitespace).reverse

/-- Python `str.strip()`. -/
def strStrip (s : String) : String :=
  String.mk (trimChars s.data)

/-- Split a character list on a separator character, keeping empty
segments (Python `str.split(sep)` for a 1-character separator). -/
def splitChar (sep : Char) (cs : List Char) : List (List Char) :=
  cs.foldr
    (fun c acc =>
      if c = sep then [] :: acc
      else
        match acc with
        | g :: gs => (c :: g) :: gs
        | [] => [[c]])
    [[]]

/-- `splitChar` on strings. -/
def strSplit (sep : Char) (s : String) : List String :=
  (splitChar sep s.data).map String.mk

/-- Python `int(s)` on a string: optional surrounding whitespace, optional
sign, then a nonempty run of decimal digits; otherwise `ValueError`. -/
def parseIntStr (s : String) : Option Int :=
  let signDigits : Bool × List Char :=
    match trimChars s.data with
    | '-' :: rest => (true, rest)
    | '+' :: rest => (false, rest)
    | l => (false, l)
  if signDigits.2 ≠ [] ∧ signDigits.2.all Char.isDigit then
    let n : Nat := signDigits.2.foldl (fun acc c => acc * 10 + (c.toNat - 48)) 0
    some (if signDigits.1 then -(n : Int) else (n : Int))
  else none

/-- Python `int(v)` on a JSON value: ints pass through, bools coerce,
numeric strings parse, everything else raises (`TypeError`/`ValueError`),
modelled by `none`. -/
def pyInt : Json → Option Int
  | .num n => some n
  | .bool b => some (if b then 1 else 0)
  | .str s => parseIntStr s
  | _ => none

mutual
/-- Python `repr` of a JSON value, used by `str()` on non-string values. -/
def pyRepr : Json → String
  | .null => "None"
  | .bool b => if b then "True" else "False"
  | .num n => toString n
  | .str s => "'" ++ s ++ "'"
  | .arr xs => "[" ++ pyReprList xs ++ "]"
  | .obj fs => "\x7b" ++ pyReprFields fs ++ "\x7d"

def pyReprList : List Json → String
  | [] => ""
  | [x] => pyRepr x
  | x :: xs => pyRepr x ++ ", " ++ pyReprList xs

def pyReprFields : List (String × Json) → String
  | [] => ""
  | [p] => "'" ++ p.1 ++ "': " ++ pyRepr p.2
  | p :: ps => "'" ++ p.1 ++ "': " ++ pyRepr p.2 ++ ", " ++ pyReprFields ps
end

/-- Python `str(v)`: identity on strings, `repr`-style otherwise
(`str(None) = "None"` in particular). -/
def pyStr : Json → String
  | .str s => s
  | j => pyRepr j

/-- `wttr._safe_int(value, default)`: `int(str(value))` with the exception
swallowed.  The argument is `Option Json` because call sites pass the result
of `dict.get`, which may be Python `None` (modelled by `none`). -/
def safe_int (v : Option Json) (default : Int) : Int :=
  match parseIntStr (pyStr (v.getD .null)) with
  | some n => n
  | none => default

/-! ## icons.py -/

/-- `icons.DEFAULT_ICON`. -/
def DEFAULT_ICON : String := "skc"

/-- `icons.CODE_ICON_MAP`, in source (insertion) order. -/
def CODE_ICON_MAP : List (String × List Int) :=
  [ ("skc", [113]),
    ("few", [116]),
    ("bkn", [119]),
    ("ovc", [122]),
    ("mist", [143]),
    ("fg", [248, 260]),
    ("shra", [176, 263, 296, 353, 356]),
    ("ra", [266, 293, 299, 302]),
    ("ra1", [305, 308, 359]),
    ("sn", [179, 227, 230, 323, 326, 329, 332, 335, 338, 368, 371]),
    ("mix", [182, 185, 317, 320, 362, 365]),
    ("fzra", [281, 284, 311, 314]),
    ("ip", [350, 374, 377]),
    ("tsra", [200, 386, 389, 392, 395]) ]

/-- The `for icon, codes in CODE_ICON_MAP.items()` lookup loop of
`icons.icon_name_for_code`. -/
def lookupIcon : List (String × List Int) → Int → String
  | [], _ => DEFAULT_ICON
  | (icon, codes) :: rest, c => if c ∈ codes then icon else lookupIcon rest c

/-- `icons.icon_name_for_code(code)`: `None` and `0` are falsy and yield the
default icon; otherwise the first table entry whose code set contains the
code wins, with the default for unrecognized codes. -/
def icon_name_for_code (code : Option Int) : String :=
  match code with
  | none => DEFAULT_ICON
  | some c => if c = 0 then DEFAULT_ICON else lookupIcon CODE_ICON_MAP c

/-! ## Dates and times

`wttr.py` delegates string parsing of dates and clock times to the external
`dateutil` library and `models.py` stores `datetime.date` / `datetime.time`
values.  The external collaborator is modelled here by executable parsers
for the formats the wttr.in payload carries (ISO dates such as
"2026-01-01" and 12-hour clock strings such as "08:30 AM"); any other
value models a raised parse error (`none`). -/

/-- A calendar date (`datetime.date`). -/
structure DateV where
  year : Nat
  month : Nat
  day : Nat
deriving DecidableEq, Repr

/-- A wall-clock time (`datetime.time`), 24-hour. -/
structure TimeV where
  hour : Nat
  minute : Nat
deriving DecidableEq, Repr

/-- A local date-time (`datetime.datetime`, no timezone). -/
structure DateTimeV where
  date : DateV
  clock : TimeV
deriving DecidableEq, Repr

/-- Leap-year rule used by `datetime.date` validity. -/
def isLeapYear (y : Nat) : Bool :=
  (y % 4 = 0 && y % 100 ≠ 0) || y % 400 = 0

/-- Days in a month, for `datetime.date` validity. -/
def daysInMonth (y m : Nat) : Nat :=
  if m = 2 then (if isLeapYear y then 29 else 28)
  else if m = 4 ∨ m = 6 ∨ m = 9 ∨ m = 11 then 30
  else 31

/-- Whether (y, m, d) is a valid calendar date. -/
def validDate (y m d : Nat) : Bool :=
  1 ≤ m && m ≤ 12 && 1 ≤ d && d ≤ daysInMonth y m

/-- Parse a nonempty all-digit string as a `Nat`. -/
def parseNatStr (s : String) : Option Nat :=
  if s.data ≠ [] ∧ s.data.all Char.isDigit then
    some (s.data.foldl (fun acc c => acc * 10 + (c.toNat - 48)) 0)
  else none

/-- Modelled from the external `dateutil` collaborator: parse an ISO
"YYYY-MM-DD" date string, validating the calendar date as
`datetime.date` does.  Anything else models a raised parse error. -/
def parseDateStr (s : String) : Option DateV :=
  match strSplit '-' s with
  | [ys, ms, ds] => do
    let y ← parseNatStr ys
    let m ← parseNatStr ms
    let d ← parseNatStr ds
    if validDate y m d then some ⟨y, m, d⟩ else none
  | _ => none

/-- Modelled from the external `dateutil` collaborator: parse a clock-time
string, either 24-hour "HH:MM" or 12-hour "HH:MM AM"/"HH:MM PM". -/
def parseClockStr (s : String) : Option TimeV :=
  let core : String → Bool → Option TimeV := fun hm pm =>
    match strSplit ':' hm with
    | [hs, ms] => do
      let h ← parseNatStr hs
      let m ← parseNatStr ms
      if pm then
        if 1 ≤ h ∧ h ≤ 12 ∧ m < 60 then some ⟨(h % 12) + 12, m⟩ else none
      else if h < 24 ∧ m < 60 then some ⟨h, m⟩ else none
    | _ => none
  match strSplit ' ' (strStrip s) with
  | [hm] => core hm false
  | [hm, ap] =>
    if ap = "AM" then
      (core hm false).bind (fun t =>
        if 1 ≤ t.hour ∧ t.hour ≤ 12 then some ⟨t.hour % 12, t.minute⟩ else none)
    else if ap = "PM" then core hm true
    else none
  | _ => none

/-- `wttr._parse_local_datetime` via `dateutil`: parse a
"YYYY-MM-DD HH:MM AM/PM" observation stamp.  A non-string value raises
`TypeError` inside `dateutil`, modelled by `none`. -/
def parse_local_datetime (v : Json) : Option DateTimeV :=
  match v with
  | .str s =>
    match strSplit ' ' (strStrip s) with
    | [d, hm, ap] => do
      let dv ← parseDateStr d
      let tv ← parseClockStr (hm ++ " " ++ ap)
      some ⟨dv, tv⟩
    | [d, hm] => do
      let dv ← parseDateStr d
      let tv ← parseClockStr hm
      some ⟨dv, tv⟩
    | _ => none
  | _ => none

/-- `dateutil.parser.parse(value).time()` for the astronomy fields: a
non-string raises, a string is parsed as a clock time. -/
def parseClockOf (v : Json) : Option TimeV :=
  match v with
  | .str s => parseClockStr s
  | _ => none

/-- `dateutil.parser.parse(value).date()` for the daily `date` field. -/
def parseDateOf (v : Json) : Option DateV :=
  match v with
  | .str s => parseDateStr s
  | _ => none

/-! ## models.py -/

/-- `models.PeriodForecast`. -/
structure PeriodForecast where
  label : String
  temp_c : Int
  summary : String
  icon : String
deriving DecidableEq, Repr

/-- `models.CurrentConditions`.  `wind_direction` is stored untouched from
the payload (Python performs no conversion on it), hence `Json`. -/
structure CurrentConditions where
  temperature_c : Int
  feels_like_c : Int
  humidity : Int
  summary : String
  icon : String
  wind_kph : Int
  wind_direction : Json
  pressure_hpa : Int
  observation_time : DateTimeV
  chance_of_rain : Int
  cloud_cover : Int

/-- `models.DailyForecast`. -/
structure DailyForecast where
  date : DateV
  min_c : Int
  max_c : Int
  summary : String
  icon : String
  chance_of_rain : Int
  sunrise : TimeV
  sunset : TimeV
  periods : List PeriodForecast

/-- `models.WeatherSnapshot`.  `generated_at` is the `datetime.utcnow()`
instant taken at normalization time. -/
structure WeatherSnapshot where
  location_name : String
  generated_at : DateTimeV
  current : CurrentConditions
  forecast : List DailyForecast

/-! ## wttr.py -/

/-- `wttr.PERIOD_DEFINITIONS`. -/
def PERIOD_DEFINITIONS : List (String × Int) :=
  [("Morning", 900), ("Noon", 1500), ("Evening", 2100), ("Night", 300)]

/-- `wttr._first_value(values, default="")`: extract a display string from a
`weatherDesc`-shaped value.  The argument is the result of `dict.get`, so
`none` is Python `None`.  The result `none` models the uncaught
`AttributeError` raised by `.strip()` when a list's first element is a dict
whose "value" is not a string. -/
def first_value (values : Option Json) : Option String :=
  match values with
  | some (.arr (c :: _)) =>
    match c with
    | .obj fs =>
      match lookupField fs "value" with
      | some (.str s) => some (strStrip s)
      | some _ => none
      | none => some ""
    | .str s => some (strStrip s)
    | _ => some ""
  | some (.obj fs) =>
    match lookupField fs "value" with
    | some v => some (strStrip (pyStr v))
    | none => some ""
  | _ => some ""

/-- Python `max(values)` for a nonempty list, else the `0` default of
`wttr._max_hourly`. -/
def maxOrZero : List Int → Int
  | [] => 0
  | v :: vs => vs.foldl max v

/-- The value-collecting loop of `wttr._max_hourly`: `int(hour.get(key, "0"))`
per entry, skipping `TypeError`/`ValueError`; an entry that is not a dict
raises an uncaught `AttributeError`, modelled by `none`. -/
def collectVals : List Json → String → Option (List Int)
  | [], _ => some []
  | h :: t, k => do
    let g ← dictGet h k
    let rest ← collectVals t k
    match pyInt (g.getD (.str "0")) with
    | some v => some (v :: rest)
    | none => some rest

/-- `wttr._max_hourly(hourly, key)`. -/
def max_hourly (hourly : List Json) (key : String) : Option Int := do
  let vals ← collectVals hourly key
  some (maxOrZero vals)

/-- The hourly list of a daily object: `day.get("hourly", [])` followed by
iteration.  A non-iterable value makes every later use raise, modelled by
`none` here (the overall outcome is identical). -/
def hourlyListOf (day : Json) : Option (List Json) := do
  let g ← dictGet day "hourly"
  asIterList (g.getD (.arr []))

/-- `wttr._extract_hourly_int(weather_days, key)`. -/
def extract_hourly_int (weather_days : List Json) (key : String) : Option Int :=
  match weather_days with
  | [] => some 0
  | today :: _ => do
    let hs ← hourlyListOf today
    max_hourly hs key

/-- `wttr._parse_astronomy(entry)`: sunrise/sunset with 06:00 AM / 06:00 PM
defaults, parsed by the `dateutil` collaborator model. -/
def parse_astronomy (entry : Json) : Option (TimeV × TimeV) := do
  let sr ← dictGet entry "sunrise"
  let ss ← dictGet entry "sunset"
  let sunrise ← parseClockOf (sr.getD (.str "06:00 AM"))
  let sunset ← parseClockOf (ss.getD (.str "06:00 PM"))
  some (sunrise, sunset)

/-- The scanning loop of `wttr._representative_hour`: running best entry and
best delta (`none` = the initial `float("inf")`); entries whose `time` fails
`int(str(...))` are skipped via `continue`. -/
def goRH : List Json → Json → Option Nat → Option Json
  | [], best, _ => some best
  | e :: rest, best, bestDelta => do
    let g ← dictGet e "time"
    match parseIntStr (pyStr (g.getD (.str "0"))) with
    | none => goRH rest best bestDelta
    | some tv =>
      let d := (tv - 1200).natAbs
      match bestDelta with
      | none => goRH rest e (some d)
      | some bd => if d < bd then goRH rest e (some d) else goRH rest best (some bd)

/-- `wttr._representative_hour(hourly)`: entry closest to 1200, `{}` when
the list is empty. -/
def representative_hour (hourly : List Json) : Option Json :=
  match hourly with
  | [] => some (.obj [])
  | first :: _ => goRH hourly first none

/-- The scanning loop of `wttr._closest_hour`: like `goRH` but the `time`
value goes through `_safe_int(..., default=0)`, so unparsable times count
as 0 instead of being skipped. -/
def goCH : List Json → Int → Json → Option Nat → Option Json
  | [], _, best, _ => some best
  | e :: rest, target, best, bestDelta => do
    let g ← dictGet e "time"
    let d := (safe_int g 0 - target).natAbs
    match bestDelta with
    | none => goCH rest target e (some d)
    | some bd => if d < bd then goCH rest target e (some d) else goCH rest target best (some bd)

/-- `wttr._closest_hour(hourly, target)`: entry whose `time` is numerically
closest to the target (ties keep the earliest entry), `{}` when empty. -/
def closest_hour (hourly : List Json) (target : Int) : Option Json :=
  match hourly with
  | [] => some (.obj [])
  | first :: _ => goCH hourly target first none

/-- `wttr._build_period_forecast(label, hourly, target)`.  The bare
`int(entry.get("tempC", 0))` propagates its exception. -/
def build_period_forecast (label : String) (hourly : List Json) (target : Int) :
    Option PeriodForecast := do
  let entry ← closest_hour hourly target
  let tg ← dictGet entry "tempC"
  let temp ← pyInt (tg.getD (.num 0))
  let wd ← dictGet entry "weatherDesc"
  let summary ← first_value wd
  let wc ← dictGet entry "weatherCode"
  some ⟨label, temp, summary, icon_name_for_code (some (safe_int wc 0))⟩

/-- `int(raw[key])`: strict subscription followed by a bare `int(...)`;
either step may raise, modelled by `none`. -/
def intField (raw : Json) (key : String) : Option Int := do
  let v ← dictItem raw key
  pyInt v

/-- Hourly-derived parts of one day of the forecast loop in
`wttr.WttrClient._parse_payload`: the hourly list itself, sunrise/sunset,
the representative hour and the four periods. -/
def parse_daily_hours (day : Json) :
    Option (List Json × (TimeV × TimeV) × Json × List PeriodForecast) := do
  let hourly ← hourlyListOf day
  let ag ← dictGet day "astronomy"
  let astro0 ← index0 (ag.getD (.arr [.obj []]))
  let astro ← parse_astronomy astro0
  let representative ← representative_hour hourly
  let periods ← PERIOD_DEFINITIONS.mapM (fun lt => build_period_forecast lt.1 hourly lt.2)
  some (hourly, astro, representative, periods)

/-- Date and min/max temperature of one day: `date_parser.parse(day["date"])`
and the bare `int(day["mintempC"])` / `int(day["maxtempC"])`. -/
def parse_daily_nums (day : Json) : Option (DateV × Int × Int) := do
  let dateJ ← dictItem day "date"
  let date ← parseDateOf dateJ
  let min_c ← intField day "mintempC"
  let max_c ← intField day "maxtempC"
  some (date, min_c, max_c)

/-- The per-day body of the forecast loop in `wttr.WttrClient._parse_payload`.
Field defaults and bare `int(...)` calls follow the source; any raised
exception is `none`. -/
def parse_daily (day : Json) : Option DailyForecast := do
  let ha ← parse_daily_hours day
  let dn ← parse_daily_nums day
  let representative := ha.2.2.1
  let wd ← dictGet representative "weatherDesc"
  let summary ← first_value wd
  let wc ← dictGet representative "weatherCode"
  let chance ← max_hourly ha.1 "chanceofrain"
  some ⟨dn.1, dn.2.1, dn.2.2, summary, icon_name_for_code (some (safe_int wc 0)),
        chance, ha.2.1.1, ha.2.1.2, ha.2.2.2⟩

/-- The strict integer fields of the current-conditions object, in source
order: temp_C, FeelsLikeC, humidity, windspeedKmph, pressure, cloudcover.
Each goes through a bare `int(current_raw[...])`. -/
def parse_current_ints (raw : Json) : Option (Int × Int × Int × Int × Int × Int) := do
  let temperature_c ← intField raw "temp_C"
  let feels_like_c ← intField raw "FeelsLikeC"
  let humidity ← intField raw "humidity"
  let wind_kph ← intField raw "windspeedKmph"
  let pressure_hpa ← intField raw "pressure"
  let cloud_cover ← intField raw "cloudcover"
  some (temperature_c, feels_like_c, humidity, wind_kph, pressure_hpa, cloud_cover)

/-- The non-integer fields of the current-conditions object: summary
(via `_first_value`), icon (via `_safe_int` + `icon_name_for_code`),
the untouched `winddir16Point`, and the parsed `localObsDateTime`. -/
def parse_current_rest (raw : Json) : Option (String × String × Json × DateTimeV) := do
  let wdesc ← dictGet raw "weatherDesc"
  let summary ← first_value wdesc
  let wcode ← dictGet raw "weatherCode"
  let wind_direction ← dictItem raw "winddir16Point"
  let obsJ ← dictItem raw "localObsDateTime"
  let observation_time ← parse_local_datetime obsJ
  some (summary, icon_name_for_code (some (safe_int wcode 0)), wind_direction,
        observation_time)

/-- The `CurrentConditions` part of `wttr.WttrClient._parse_payload`:
`payload["current_condition"][0]` plus the per-field conversions, including
`chance_of_rain` from today's hourly maxima. -/
def parse_current (payload : Json) : Option CurrentConditions := do
  let ccList ← dictItem payload "current_condition"
  let current_raw ← index0 ccList
  let weatherJ ← dictItem payload "weather"
  let weather_days ← slice3 weatherJ
  let ints ← parse_current_ints current_raw
  let rest ← parse_current_rest current_raw
  let chance_of_rain ← extract_hourly_int weather_days "chanceofrain"
  some ⟨ints.1, ints.2.1, ints.2.2.1, rest.1, rest.2.1, ints.2.2.2.1, rest.2.2.1,
        ints.2.2.2.2.1, rest.2.2.2, chance_of_rain, ints.2.2.2.2.2⟩

/-- The forecast part of `wttr.WttrClient._parse_payload`:
`payload["weather"][:3]`, one `DailyForecast` per daily object. -/
def parse_forecast (payload : Json) : Option (List DailyForecast) := do
  let weatherJ ← dictItem payload "weather"
  let weather_days ← slice3 weatherJ
  weather_days.mapM parse_daily

/-- `wttr.WttrClient._parse_payload(payload)`: normalize one raw payload
into a snapshot.  `loc` is `config.location_name` and `now` the
`datetime.utcnow()` instant taken during the call.  `none` models any
exception escaping the method. -/
def parse_payload (loc : String) (now : DateTimeV) (payload : Json) :
    Option WeatherSnapshot := do
  let current ← parse_current payload
  let forecast ← parse_forecast payload
  some ⟨loc, now, current, forecast⟩

/-! ## wttr.py — `WttrClient._download_payload`

The fetch is modelled as a pure function of the network outcome and the
cache-file state.  A response body is a raw text together with its
(deterministic) `json.loads` result; `decoded = none` models an
invalid-JSON body. -/

/-- A raw HTTP response body / cache-file content: the verbatim text and
what `json.loads` yields on it (`none` = `json.JSONDecodeError`). -/
structure RawBody where
  raw : String
  decoded : Option Json

/-- Outcome of `requests.get`: a raised `requests.RequestException`
(connection error, timeout, ...) or a response with a status code and
body. -/
inductive NetOutcome where
  | exc : NetOutcome
  | ok (status : Nat) (body : RawBody) : NetOutcome

/-- Errors escaping `_download_payload`. -/
inductive DlErr where
  | offlineNoCache : DlErr
  | noCacheAvailable : DlErr
  | jsonDecode : DlErr
deriving DecidableEq, Repr

/-- Result of one `_download_payload` call: whether `requests.get` was
reached, the cache-file state afterwards, and the returned payload or the
escaping exception. -/
structure DlResult where
  requested : Bool
  cache : Option RawBody
  outcome : Except DlErr Json

/-- `json.loads` on a cache file / body: the decoded payload, or the
uncaught `json.JSONDecodeError`. -/
def loadsOf (b : RawBody) : Except DlErr Json :=
  match b.decoded with
  | some j => .ok j
  | none => .error .jsonDecode

/-- The `except` branch of `_download_payload`: read the cache file back if
it exists (its `json.loads` error, if any, escapes uncaught), else raise
`RuntimeError("Unable to fetch wttr data and no cache available")`. -/
def fallbackOutcome : Option RawBody → Except DlErr Json
  | some b => loadsOf b
  | none => .error .noCacheAvailable

/-- `wttr.WttrClient._download_payload(use_cache_only=...)` over the network
outcome `net` and the cache-file state `cache`.  Mirrors the source order:
offline mode never touches the network; online mode calls `requests.get`,
raises for status ≥ 400, otherwise writes the body text to the cache file
BEFORE decoding it, and on any `RequestException`/`ValueError` falls back
to whatever the cache file then holds. -/
def download_payload (use_cache_only : Bool) (net : NetOutcome)
    (cache : Option RawBody) : DlResult :=
  if use_cache_only then
    match cache with
    | some b => ⟨false, some b, loadsOf b⟩
    | none => ⟨false, none, .error .offlineNoCache⟩
  else
    match net with
    | .exc => ⟨true, cache, fallbackOutcome cache⟩
    | .ok status body =>
      if 400 ≤ status then ⟨true, cache, fallbackOutcome cache⟩
      else
        match body.decoded with
        | some j => ⟨true, some body, .ok j⟩
        | none => ⟨true, some body, fallbackOutcome (some body)⟩

/-! ## renderer.py

The renderer is embedded as a pure layout function producing the sequence
of draw operations (text placements and icon pastes) together with the
canvas mode and size.  Text measurement (`draw.textlength`) depends on the
font assets, an external collaborator, and is abstracted as an environment
argument.  The source's float arithmetic involves only halves, quarters
and a 0.75 factor of integers, which binary floats represent exactly, so
it is modelled with rationals. -/

/-- Abbreviated weekday names as used by `strftime("%a")` (C locale),
indexed with 0 = Sunday. -/
def dayAbbrev (w : Nat) : String :=
  ["Sun", "Mon", "Tue", "Wed", "Thu", "Fri", "Sat"].getD w ""

/-- Abbreviated month names as used by `strftime("%b")` (C locale). -/
def monthAbbrev (m : Nat) : String :=
  ["Jan", "Feb", "Mar", "Apr", "May", "Jun",
   "Jul", "Aug", "Sep", "Oct", "Nov", "Dec"].getD (m - 1) ""

/-- Day of week of a calendar date (Sakamoto's method), 0 = Sunday. -/
def weekdayOf (d : DateV) : Nat :=
  let t := [0, 3, 2, 5, 0, 3, 5, 1, 4, 6, 2, 4]
  let y := if d.month < 3 then d.year - 1 else d.year
  (y + y / 4 + y / 400 + t.getD (d.month - 1) 0 + d.day - y / 100) % 7

/-- Zero-pad a number to two digits (`%d`, `%m`, `%I`, `%M`). -/
def pad2 (n : Nat) : String :=
  if n < 10 then "0" ++ toString n else toString n

/-- Zero-pad a year to four digits (`%Y`). -/
def pad4 (n : Nat) : String :=
  if n < 10 then "000" ++ toString n
  else if n < 100 then "00" ++ toString n
  else if n < 1000 then "0" ++ toString n
  else toString n

/-- `renderer._format_ampm(value)`: `strftime("%I:%M %p")` with a stripped
leading zero. -/
def format_ampm (t : TimeV) : String :=
  let h12 := if t.hour % 12 = 0 then 12 else t.hour % 12
  let formatted := pad2 h12 ++ ":" ++ pad2 t.minute ++ " " ++
    (if t.hour < 12 then "AM" else "PM")
  match formatted.data with
  | '0' :: rest => String.mk rest
  | _ => formatted

/-- `renderer._format_datetime(dt)`: `strftime("%a %d %b")` plus the
stripped 12-hour clock. -/
def format_datetime (dt : DateTimeV) : String :=
  dayAbbrev (weekdayOf dt.date) ++ " " ++ pad2 dt.date.day ++ " " ++
    monthAbbrev dt.date.month ++ " " ++ format_ampm dt.clock

/-- `day.date.strftime("%a %d")` used for the forecast column headers. -/
def fmt_a_d (d : DateV) : String :=
  dayAbbrev (weekdayOf d) ++ " " ++ pad2 d.day

/-- `strftime("%Y-%m-%d")` used in the footer. -/
def fmt_ymd (d : DateV) : String :=
  pad4 d.year ++ "-" ++ pad2 d.month ++ "-" ++ pad2 d.day

/-- The four line texts of the current-conditions block, in source order. -/
def infoLines (c : CurrentConditions) : List String :=
  [ "Feels like " ++ toString c.feels_like_c ++ "°c",
    "Chance of rain " ++ toString c.chance_of_rain ++ "%",
    "Cloud cover " ++ toString c.cloud_cover ++ "%",
    c.summary ]

/-- `renderer.FORECAST_PERIOD_LABELS`. -/
def FORECAST_PERIOD_LABELS : List String := ["Morning", "Noon", "Evening", "Night"]

/-- The per-day period lookup of `Renderer._draw_forecast`: the dict
comprehension keyed by `period.label` (later entries overwrite earlier
ones) followed by `.get(label, PeriodForecast(label, 0, "", "skc"))`. -/
def periodCell (ps : List PeriodForecast) (l : String) : PeriodForecast :=
  match ps.reverse.find? (fun p => p.label = l) with
  | some p => p
  | none => ⟨l, 0, "", "skc"⟩

/-- The four cells drawn for one day's column, in label order. -/
def forecastCells (ps : List PeriodForecast) : List PeriodForecast :=
  FORECAST_PERIOD_LABELS.map (periodCell ps)

/-- One abstract draw operation: a text placement (position, text, font
weight/size, PIL anchor) or an icon paste (integer position, icon id,
size). -/
inductive DrawOp where
  | textOp (x y : Rat) (s : String) (weight : String) (size : Nat) (anchor : String)
  | iconOp (x y : Int) (name : String) (size : Nat)
deriving DecidableEq, Repr

/-- The rendered output: canvas mode, size, and draw operations in order. -/
structure RenderedImage where
  mode : String
  width : Int
  height : Int
  ops : List DrawOp
deriving DecidableEq, Repr

/-- Canvas configuration consumed by `Renderer` (from `AppConfig`). -/
structure RenderCfg where
  image_width : Int
  image_height : Int
  grayscale : Bool

/-- Text-measurement environment abstracting `draw.textlength` over the
bundled font assets: weight, size, text ↦ pixel width. -/
def TextEnv : Type := String → Nat → String → Rat

/-- Python `int(x)` on a float coordinate: truncation toward zero, as used
by `Renderer._paste_icon`. -/
def truncQ (q : Rat) : Int :=
  if 0 ≤ q then ⌊q⌋ else -⌊-q⌋

/-- `Renderer._draw_forecast` (layout only): column geometry, day header
texts, and the 4 label rows with per-day icon and temperature cells.  Takes
each day as its date together with its 4 label-ordered cells. -/
def forecastGridOps (w : Int) (y ha : Rat)
    (dcs0 : List (DateV × List PeriodForecast)) : List DrawOp :=
  let dcs := dcs0.take 3
  match dcs with
  | [] => []
  | _ =>
    let label_width : Rat := 80
    let aw : Rat := ((w : Rat) - 2 * 32 - label_width) * (3 / 4)
    let n : Nat := dcs.length
    let col_width : Rat :=
      max 90 (((⌊(aw - ((n : Rat) - 1) * 12) / (n : Rat)⌋ : Int) : Rat))
    let total_width : Rat := col_width * (n : Rat) + 12 * ((n : Rat) - 1) + label_width
    let table_start_x : Rat := 32 + max 0 (((w : Rat) - 2 * 32 - total_width) / 2)
    let col_start_x : Rat := table_start_x + label_width
    let headerOps := dcs.enum.map (fun p =>
      DrawOp.textOp (col_start_x + (p.1 : Rat) * (col_width + 12)) y
        (fmt_a_d p.2.1) "bold" 16 "la")
    let row_y0 : Rat := y + 16 + 8
    let row_height : Rat := max ((ha - 16 - 20) / 4) (26 + 14)
    let rowOps := (FORECAST_PERIOD_LABELS.enum.map (fun lk =>
      let row_y := row_y0 + (lk.1 : Rat) * row_height
      DrawOp.textOp (32 + label_width / 2) (row_y + row_height / 2) lk.2 "bold" 16 "mm"
        :: (dcs.enum.map (fun p =>
             let period := p.2.2.getD lk.1 ⟨lk.2, 0, "", "skc"⟩
             let col_x := col_start_x + (p.1 : Rat) * (col_width + 12)
             let icon_x := col_x + 6
             let icon_y := row_y + row_height / 2 - 13
             [ DrawOp.iconOp (truncQ icon_x) (truncQ icon_y) period.icon 26,
               DrawOp.textOp (icon_x + 26 + (col_width - 26 - 12) / 2)
                 (row_y + row_height / 2)
                 (toString period.temp_c ++ "°c") "bold" 16 "mm" ])).flatten)).flatten
    headerOps ++ rowOps

/-- `Renderer.render(snapshot)`: canvas mode/size plus the draw operations
of header, current-conditions block, forecast grid and footer, in source
order.  The vertical cursor values mirror the source's arithmetic
(padding 32, gutter 12, fonts 36/20/140/22/16, current icon 150px,
forecast height 240). -/
def renderImage (cfg : RenderCfg) (env : TextEnv) (s : WeatherSnapshot) :
    RenderedImage :=
  let mode := if cfg.grayscale then "L" else "RGB"
  let padding : Rat := 32
  let y0 : Rat := padding
  let headerText := format_datetime s.current.observation_time
  let tw := env "regular" 20 headerText
  let headerOps := [
    DrawOp.textOp padding y0 s.location_name "bold" 36 "la",
    DrawOp.textOp ((cfg.image_width : Rat) - padding - tw) (y0 + 10)
      headerText "regular" 20 "la" ]
  let y2 : Rat := (y0 + 36 + 10) + 12
  let icon_x : Rat := padding + 40
  let icon_y : Rat := y2 + 20
  let text_x : Rat := icon_x + 150 + 40
  let currentOps :=
    DrawOp.iconOp (truncQ icon_x) (truncQ icon_y) s.current.icon 150
    :: DrawOp.textOp text_x y2 (toString s.current.temperature_c ++ "°c") "bold" 140 "la"
    :: (infoLines s.current).enum.map (fun pl =>
         DrawOp.textOp text_x (y2 + 140 + 8 + (pl.1 : Rat) * (22 + 6))
           pl.2 "regular" 22 "la")
  let footer_y : Rat := (cfg.image_height : Rat) - padding - 20
  let forecast_y : Rat := footer_y - 240 - 12
  let dcs := s.forecast.map (fun d => (d.date, forecastCells d.periods))
  let fOps := forecastGridOps cfg.image_width forecast_y 240 dcs
  let footerOps := [
    DrawOp.textOp padding ((truncQ footer_y : Int) : Rat)
      ("Updated " ++ fmt_ymd s.generated_at.date ++ " " ++
       format_ampm s.generated_at.clock ++ " UTC")
      "regular" 16 "la" ]
  ⟨mode, cfg.image_width, cfg.image_height, headerOps ++ currentOps ++ fOps ++ footerOps⟩

/-! ## Concrete sample data

A wttr.in-shaped payload used for witnesses and counterexamples, with the
current `temp_C` and `weatherCode` values left as parameters. -/

/-- One hourly entry of the sample payload. -/
def sampleHour (t temp ch : String) : Json :=
  .obj [ ("time", .str t), ("tempC", .str temp), ("chanceofrain", .str ch),
         ("weatherDesc", .arr [.obj [("value", .str "Cloudy")]]),
         ("weatherCode", .str "119") ]

/-- The single daily object of the sample payload. -/
def sampleDay : Json :=
  .obj [ ("date", .str "2026-01-01"),
         ("mintempC", .str "-1"),
         ("maxtempC", .str "4"),
         ("astronomy", .arr [.obj [("sunrise", .str "08:30 AM"),
                                   ("sunset", .str "05:48 PM")]]),
         ("hourly", .arr [ sampleHour "300" "1" "20",
                           sampleHour "900" "2" "45",
                           sampleHour "1200" "3" "30",
                           sampleHour "2100" "2" "10" ]) ]

/-- The current-conditions object of the sample payload, parameterized by
the `temp_C` and `weatherCode` values. -/
def sampleCurrentRaw (tv wc : Json) : Json :=
  .obj [ ("temp_C", tv),
         ("FeelsLikeC", .str "0"),
         ("humidity", .str "70"),
         ("weatherDesc", .arr [.obj [("value", .str "Partly cloudy")]]),
         ("weatherCode", wc),
         ("windspeedKmph", .str "12"),
         ("winddir16Point", .str "NW"),
         ("pressure", .str "1020"),
         ("localObsDateTime", .str "2026-01-01 12:30 PM"),
         ("cloudcover", .str "40") ]

/-- The sample payload: well-formed top level (`current_condition` and
`weather` both present), one daily object. -/
def samplePayload (tv wc : Json) : Json :=
  .obj [ ("current_condition", .arr [sampleCurrentRaw tv wc]),
         ("weather", .arr [sampleDay]) ]

/-- The sample payload with the `temp_C` key missing entirely. -/
def samplePayloadNoTemp : Json :=
  .obj [ ("current_condition",
          .arr [.obj [ ("FeelsLikeC", .str "0"),
                       ("humidity", .str "70"),
                       ("weatherDesc", .arr [.obj [("value", .str "Partly cloudy")]]),
                       ("weatherCode", .str "116"),
                       ("windspeedKmph", .str "12"),
                       ("winddir16Point", .str "NW"),
                       ("pressure", .str "1020"),
                       ("localObsDateTime", .str "2026-01-01 12:30 PM"),
                       ("cloudcover", .str "40") ]]),
         ("weather", .arr [sampleDay]) ]

/-- A fixed generation instant for sample runs. -/
def sampleNow : DateTimeV := ⟨⟨2026, 1, 2⟩, ⟨9, 5⟩⟩

/-- The daily forecast `_parse_payload` produces on `sampleDay`. -/
def sampleDailyForecast : DailyForecast :=
  ⟨⟨2026, 1, 1⟩, -1, 4, "Cloudy", "bkn", 45, ⟨8, 30⟩, ⟨17, 48⟩,
   [⟨"Morning", 2, "Cloudy", "bkn"⟩,
    ⟨"Noon", 3, "Cloudy", "bkn"⟩,
    ⟨"Evening", 2, "Cloudy", "bkn"⟩,
    ⟨"Night", 1, "Cloudy", "bkn"⟩]⟩

/-- The snapshot `_parse_payload` produces on `samplePayload` with a given
current temperature and resolved current icon. -/
def sampleSnapshot (t : Int) (ic : String) : WeatherSnapshot :=
  ⟨"Test City", sampleNow,
   ⟨t, 0, 70, "Partly cloudy", ic, 12, .str "NW", 1020,
    ⟨⟨2026, 1, 1⟩, ⟨12, 30⟩⟩, 45, 40⟩,
   [sampleDailyForecast]⟩

example :
    parse_payload "Test City" sampleNow (samplePayload (.str "2") (.str "116")) =
      some (sampleSnapshot 2 "few") := by rfl

/-! ## Helper lemmas -/

/-- A code contained in no entry of the table falls through the lookup loop
to the default icon. -/
lemma lookupIcon_of_unrecognized (m : List (String × List Int)) (c : Int)
    (h : ∀ p ∈ m, c ∉ p.2) : lookupIcon m c = DEFAULT_ICON := by
  induction m with
  | nil => rfl
  | cons x rest ih =>
    obtain ⟨icon, codes⟩ := x
    have hx : c ∉ codes := h (icon, codes) (List.mem_cons_self _ _)
    simp only [lookupIcon, if_neg hx]
    exact ih (fun p hp => h p (List.mem_cons_of_mem _ hp))

/-- In a pairwise-disjoint icon table, a code determines its entry. -/
lemma pairwise_disjoint_unique (m : List (String × List Int))
    (hm : List.Pairwise (fun a b => ∀ c : Int, c ∈ a.2 → c ∉ b.2) m)
    (p q : String × List Int) (hp : p ∈ m) (hq : q ∈ m)
    (c : Int) (hcp : c ∈ p.2) (hcq : c ∈ q.2) : p = q := by
  induction m with
  | nil => cases hp
  | cons x rest ih =>
    have hx : ∀ b ∈ rest, ∀ d : Int, d ∈ x.2 → d ∉ b.2 := (List.pairwise_cons.mp hm).1
    have hrest := (List.pairwise_cons.mp hm).2
    rcases List.mem_cons.mp hp with hpx | hpr
    · rcases List.mem_cons.mp hq with hqx | hqr
      · rw [hpx, hqx]
      · exact absurd hcq (hx q hqr c (hpx ▸ hcp))
    · rcases List.mem_cons.mp hq with hqx | hqr
      · exact absurd hcp (hx p hpr c (hqx ▸ hcq))
      · exact ih hrest hpr hqr

/-! ## Claims -/

/-- C5: `icon_name_for_code` (the source of `resolve_icon`) is a total
deterministic function: absent (`None`), zero, and unrecognized codes all
yield the default icon id "skc", and every code listed in the fixed table
yields the icon id of the entry containing it. -/
theorem c5_resolve_icon_total_default :
    icon_name_for_code none = "skc" ∧
    icon_name_for_code (some 0) = "skc" ∧
    (∀ c : Int, (∀ p ∈ CODE_ICON_MAP, c ∉ p.2) → icon_name_for_code (some c) = "skc") ∧
    (∀ p ∈ CODE_ICON_MAP, ∀ c ∈ p.2, icon_name_for_code (some c) = p.1) := by
  refine ⟨rfl, rfl, ?_, by decide⟩
  intro c h
  show icon_name_for_code (some c) = DEFAULT_ICON
  simp only [icon_name_for_code]
  by_cases hc : c = 0
  · rw [if_pos hc]
  · rw [if_neg hc]
    exact lookupIcon_of_unrecognized _ _ h

/-- Witness for C5: the unrecognized code 999 resolves to "skc" and the
listed code 116 resolves to "few". -/
theorem c5_resolve_icon_total_default_witness :
    icon_name_for_code (some 999) = "skc" ∧ icon_name_for_code (some 116) = "few" :=
  ⟨c5_resolve_icon_total_default.2.2.1 999 (by decide),
   c5_resolve_icon_total_default.2.2.2 ("few", [116]) (by decide) 116 (by decide)⟩

/-- C9: the code sets of `CODE_ICON_MAP` are pairwise disjoint; hence every
numeric code belongs to at most one entry, and the lookup's result is the
unique entry containing the code (independent of entry order). -/
theorem c9_code_icon_map_disjoint :
    List.Pairwise (fun a b => ∀ c : Int, c ∈ a.2 → c ∉ b.2) CODE_ICON_MAP ∧
    (∀ (c : Int) (p q : String × List Int), p ∈ CODE_ICON_MAP → q ∈ CODE_ICON_MAP →
      c ∈ p.2 → c ∈ q.2 → p = q) ∧
    (∀ p ∈ CODE_ICON_MAP, ∀ c ∈ p.2, lookupIcon CODE_ICON_MAP c = p.1) := by
  have hpw : List.Pairwise (fun a b => ∀ c : Int, c ∈ a.2 → c ∉ b.2) CODE_ICON_MAP := by
    decide
  exact ⟨hpw,
    fun c p q hp hq hcp hcq => pairwise_disjoint_unique _ hpw p q hp hq c hcp hcq,
    by decide⟩

/-- Witness for C9: code 260 lies in the "fg" entry and in no other; its
lookup yields "fg". -/
theorem c9_code_icon_map_disjoint_witness :
    (("fg", [248, 260]) : String × List Int) = ("fg", [248, 260]) ∧
      lookupIcon CODE_ICON_MAP 260 = "fg" :=
  ⟨c9_code_icon_map_disjoint.2.1 260 ("fg", [248, 260]) ("fg", [248, 260])
     (by decide) (by decide) (by decide) (by decide),
   c9_code_icon_map_disjoint.2.2 ("fg", [248, 260]) (by decide) 260 (by decide)⟩

/-- A previously cached, valid wttr payload. -/
def oldBody : RawBody := ⟨"old-cache-text", some (.obj [("ok", .bool true)])⟩

/-- An HTTP-success response body that is not valid JSON. -/
def garbageBody : RawBody := ⟨"<html>gateway error</html>", none⟩

/-- C8: in offline (cache-only) mode the network outcome is irrelevant and
`requests.get` is never reached; with no cache file the call fails with the
fatal `RuntimeError("Offline mode requested but no cached wttr payload")`,
and with a cache file present its content is decoded and returned. -/
theorem c8_offline_mode :
    (∀ (n1 n2 : NetOutcome) (c : Option RawBody),
       download_payload true n1 c = download_payload true n2 c) ∧
    (∀ (n : NetOutcome) (c : Option RawBody),
       (download_payload true n c).requested = false) ∧
    (∀ n : NetOutcome,
       download_payload true n none = ⟨false, none, .error .offlineNoCache⟩) ∧
    (∀ (n : NetOutcome) (b : RawBody),
       download_payload true n (some b) = ⟨false, some b, loadsOf b⟩) := by
  refine ⟨fun n1 n2 c => ?_, fun n c => ?_, fun n => rfl, fun n b => rfl⟩
  · cases c <;> rfl
  · cases c <;> rfl

/-- C2 (failing input): an HTTP 200 response with an invalid-JSON body
overwrites the cache file with that body before decoding, so the fallback
re-reads the garbage and the run dies with a `json.JSONDecodeError` — the
prior cached payload is NOT the one used.  For a genuine network exception
the prior cache is used as the claim describes. -/
theorem c2_fetch_cache_overwrite_eval :
    download_payload false (.ok 200 garbageBody) (some oldBody) =
      ⟨true, some garbageBody, .error .jsonDecode⟩ ∧
    (Except.error .jsonDecode : Except DlErr Json) ≠ .ok (.obj [("ok", .bool true)]) ∧
    download_payload false .exc (some oldBody) =
      ⟨true, some oldBody, .ok (.obj [("ok", .bool true)])⟩ :=
  ⟨rfl, fun h => Except.noConfusion h, rfl⟩

/-! ### Inversion helpers for `_parse_payload` -/

/-- Successful `Option` `mapM` preserves length. -/
lemma mapM_some_length {α β : Type} (f : α → Option β) :
    ∀ (l : List α) (r : List β), l.mapM f = some r → r.length = l.length := by
  intro l
  induction l with
  | nil =>
    intro r h
    simp only [List.mapM_nil, pure, Option.some.injEq] at h
    rw [← h]
    rfl
  | cons a t ih =>
    intro r h
    rw [List.mapM_cons] at h
    cases hfa : f a with
    | none => rw [hfa] at h; exact absurd h (by simp)
    | some b =>
      rw [hfa] at h
      cases hbs : t.mapM f with
      | none => rw [hbs] at h; exact absurd h (by simp)
      | some bs =>
        rw [hbs] at h
        have h2 : b :: bs = r := by simpa using h
        rw [← h2]
        simp [ih bs hbs]

/-- A successful `_parse_payload` run determines successful current and
forecast sub-parses. -/
lemma parse_payload_inv (loc : String) (now : DateTimeV) (p : Json)
    (s : WeatherSnapshot) (h : parse_payload loc now p = some s) :
    parse_current p = some s.current ∧ parse_forecast p = some s.forecast := by
  unfold parse_payload at h
  cases hc : parse_current p with
  | none => rw [hc] at h; exact absurd h (by simp)
  | some c =>
    rw [hc] at h
    cases hf : parse_forecast p with
    | none => rw [hf] at h; exact absurd h (by simp)
    | some f =>
      rw [hf] at h
      have h2 : (⟨loc, now, c, f⟩ : WeatherSnapshot) = s := by simpa using h
      rw [← h2]
      exact ⟨rfl, rfl⟩

/-- C7: the normalized forecast list has exactly `min 3 (len weather)`
entries — truncated to the first three daily objects, never padded. -/
theorem c7_forecast_length (loc : String) (now : DateTimeV) (p : Json)
    (s : WeatherSnapshot) (ws : List Json)
    (h : parse_payload loc now p = some s)
    (hw : dictItem p "weather" = some (.arr ws)) :
    s.forecast.length = min 3 ws.length := by
  obtain ⟨-, hf⟩ := parse_payload_inv loc now p s h
  unfold parse_forecast at hf
  rw [hw] at hf
  have hf2 : (ws.take 3).mapM parse_daily = some s.forecast := hf
  rw [mapM_some_length parse_daily (ws.take 3) s.forecast hf2, List.length_take]

/-- Witness for C7: the sample payload has one daily object and its
snapshot has `min 3 1 = 1` forecast entries. -/
theorem c7_forecast_length_witness :
    (sampleSnapshot 2 "few").forecast.length = min 3 [sampleDay].length :=
  c7_forecast_length "Test City" sampleNow (samplePayload (.str "2") (.str "116"))
    (sampleSnapshot 2 "few") [sampleDay] (by rfl) (by rfl)

/-! ### C3: chance of rain -/

/-- The integer-parsed `chanceofrain`-style value one hourly entry
contributes: its field under `key` (defaulting to "0" when missing), put
through `int(...)`; `none` when the parse fails (the entry is skipped). -/
def entryChance (key : String) (h : Json) : Option Int :=
  (dictGet h key).bind (fun g => pyInt (g.getD (.str "0")))

/-- A successful `_max_hourly` value collection is exactly the
`filterMap` of per-entry parses. -/
lemma collectVals_filterMap (k : String) :
    ∀ (hs : List Json) (vals : List Int), collectVals hs k = some vals →
      vals = hs.filterMap (entryChance k) := by
  intro hs
  induction hs with
  | nil =>
    intro vals h
    simp only [collectVals, Option.some.injEq] at h
    rw [← h, List.filterMap_nil]
  | cons e t ih =>
    intro vals h
    unfold collectVals at h
    cases hg : dictGet e k with
    | none =>
      rw [hg] at h
      exact Option.noConfusion (show (none : Option (List Int)) = some vals from h)
    | some g =>
      rw [hg] at h
      cases ht : collectVals t k with
      | none =>
        rw [ht] at h
        exact Option.noConfusion (show (none : Option (List Int)) = some vals from h)
      | some rest =>
        rw [ht] at h
        have hrest := ih rest ht
        have hec : entryChance k e = pyInt (g.getD (.str "0")) := by
          simp [entryChance, hg]
        cases hp : pyInt (g.getD (.str "0")) with
        | none =>
          have h2 : rest = vals := by
            have h3 : (match pyInt (g.getD (.str "0")) with
              | some v => some (v :: rest)
              | none => some rest) = some vals := h
            rw [hp] at h3
            exact Option.some.inj h3
          rw [← h2, hrest, List.filterMap_cons]
          rw [hec, hp]
        | some v =>
          have h2 : v :: rest = vals := by
            have h3 : (match pyInt (g.getD (.str "0")) with
              | some v => some (v :: rest)
              | none => some rest) = some vals := h
            rw [hp] at h3
            exact Option.some.inj h3
          rw [← h2, hrest, List.filterMap_cons]
          rw [hec, hp]

/-- A successful `_max_hourly` equals the max (or 0) of the per-entry
parses. -/
lemma max_hourly_eq (hs : List Json) (k : String) (c : Int)
    (h : max_hourly hs k = some c) :
    c = maxOrZero (hs.filterMap (entryChance k)) := by
  unfold max_hourly at h
  cases hc : collectVals hs k with
  | none =>
    rw [hc] at h
    exact Option.noConfusion (show (none : Option Int) = some c from h)
  | some vals =>
    rw [hc] at h
    have h2 : maxOrZero vals = c := by
      have h3 : (some (maxOrZero vals) : Option Int) = some c := h
      exact Option.some.inj h3
    rw [← h2, collectVals_filterMap k hs vals hc]

/-- Inversion: a successful `parse_current` pins `chance_of_rain` to
`_extract_hourly_int` over the (up to 3) daily objects. -/
lemma parse_current_chance (p : Json) (cc : CurrentConditions) (ws : List Json)
    (h : parse_current p = some cc) (hw : dictItem p "weather" = some (.arr ws)) :
    extract_hourly_int (ws.take 3) "chanceofrain" = some cc.chance_of_rain := by
  unfold parse_current at h
  obtain ⟨ccList, h1, h⟩ := Option.bind_eq_some.mp h
  obtain ⟨raw, h2, h⟩ := Option.bind_eq_some.mp h
  obtain ⟨weatherJ, h3, h⟩ := Option.bind_eq_some.mp h
  obtain ⟨wd, h4, h⟩ := Option.bind_eq_some.mp h
  obtain ⟨ints, h5, h⟩ := Option.bind_eq_some.mp h
  obtain ⟨rest, h6, h⟩ := Option.bind_eq_some.mp h
  obtain ⟨chance, h7, h⟩ := Option.bind_eq_some.mp h
  rw [hw] at h3
  have hwj : Json.arr ws = weatherJ := Option.some.inj h3
  rw [← hwj] at h4
  have hwd : some (ws.take 3) = some wd := h4
  rw [← Option.some.inj hwd] at h7
  have h8 := Option.some.inj h
  rw [← h8]
  exact h7

/-- C3: in every successfully normalized snapshot, the current
`chance_of_rain` is the maximum of the integer-parsed `chanceofrain`
values over the hourly entries of the FIRST daily object (`weather[0]`):
entries whose value fails to parse are skipped, a missing value counts
through the "0" default, and the result is 0 when nothing contributes or
the weather list is empty. -/
theorem c3_chance_of_rain_is_daily_max (loc : String) (now : DateTimeV)
    (p : Json) (s : WeatherSnapshot) (ws : List Json)
    (h : parse_payload loc now p = some s)
    (hw : dictItem p "weather" = some (.arr ws)) :
    (ws = [] → s.current.chance_of_rain = 0) ∧
    (∀ d rest hs, ws = d :: rest → hourlyListOf d = some hs →
      s.current.chance_of_rain = maxOrZero (hs.filterMap (entryChance "chanceofrain"))) := by
  obtain ⟨hc, -⟩ := parse_payload_inv loc now p s h
  have hx := parse_current_chance p s.current ws hc hw
  constructor
  · intro hnil
    rw [hnil] at hx
    have : (some 0 : Option Int) = some s.current.chance_of_rain := hx
    exact (Option.some.inj this).symm
  · intro d rest hs hcons hhs
    rw [hcons] at hx
    have hx2 : (hourlyListOf d).bind
        (fun hl => max_hourly hl "chanceofrain") = some s.current.chance_of_rain := hx
    rw [hhs] at hx2
    have hx3 : max_hourly hs "chanceofrain" = some s.current.chance_of_rain := hx2
    exact max_hourly_eq hs "chanceofrain" s.current.chance_of_rain hx3

/-- Witness for C3: on the sample payload the formula evaluates to 45 and
the snapshot indeed carries 45. -/
theorem c3_chance_of_rain_is_daily_max_witness :
    (sampleSnapshot 2 "few").current.chance_of_rain =
      maxOrZero ([ sampleHour "300" "1" "20", sampleHour "900" "2" "45",
                   sampleHour "1200" "3" "30", sampleHour "2100" "2" "10"
                 ].filterMap (entryChance "chanceofrain")) :=
  (c3_chance_of_rain_is_daily_max "Test City" sampleNow
      (samplePayload (.str "2") (.str "116")) (sampleSnapshot 2 "few") [sampleDay]
      (by rfl) (by rfl)).2 sampleDay []
      [ sampleHour "300" "1" "20", sampleHour "900" "2" "45",
        sampleHour "1200" "3" "30", sampleHour "2100" "2" "10" ] rfl (by rfl)

/-! ### C4: period construction -/

/-- The `time` distance of an hourly entry from a target, exactly as
`_closest_hour` computes it: `_safe_int(entry.get("time"), default=0)`
(missing or unparsable times count as 0), absolute difference. -/
def timeDeltaOf (target : Int) (e : Json) : Nat :=
  (safe_int (dictItem e "time") 0 - target).natAbs

/-- A successful `parse_daily` pins `periods` to the `PERIOD_DEFINITIONS`
map over `_build_period_forecast` on the day's hourly list. -/
lemma parse_daily_periods (day : Json) (df : DailyForecast)
    (h : parse_daily day = some df) :
    ∃ hs, hourlyListOf day = some hs ∧
      PERIOD_DEFINITIONS.mapM (fun lt => build_period_forecast lt.1 hs lt.2) =
        some df.periods := by
  unfold parse_daily at h
  obtain ⟨ha, hha, h⟩ := Option.bind_eq_some.mp h
  obtain ⟨dn, hdn, h⟩ := Option.bind_eq_some.mp h
  obtain ⟨wd, hwd, h⟩ := Option.bind_eq_some.mp h
  obtain ⟨summary, hsum, h⟩ := Option.bind_eq_some.mp h
  obtain ⟨wc, hwc, h⟩ := Option.bind_eq_some.mp h
  obtain ⟨chance, hch, h⟩ := Option.bind_eq_some.mp h
  have hdf := Option.some.inj h
  unfold parse_daily_hours at hha
  obtain ⟨hourly, hh, hha⟩ := Option.bind_eq_some.mp hha
  obtain ⟨ag, hag, hha⟩ := Option.bind_eq_some.mp hha
  obtain ⟨astro0, ha0, hha⟩ := Option.bind_eq_some.mp hha
  obtain ⟨astro, has2, hha⟩ := Option.bind_eq_some.mp hha
  obtain ⟨rep, hrep, hha⟩ := Option.bind_eq_some.mp hha
  obtain ⟨periods, hper, hha⟩ := Option.bind_eq_some.mp hha
  have hht := Option.some.inj hha
  refine ⟨hourly, hh, ?_⟩
  rw [← hdf, ← hht]
  exact hper

/-- Unroll the `mapM` over the four fixed period definitions. -/
lemma mapM_periods_inv (hs : List Json) (ps : List PeriodForecast)
    (h : PERIOD_DEFINITIONS.mapM (fun lt => build_period_forecast lt.1 hs lt.2) =
      some ps) :
    ∃ p1 p2 p3 p4, ps = [p1, p2, p3, p4] ∧
      build_period_forecast "Morning" hs 900 = some p1 ∧
      build_period_forecast "Noon" hs 1500 = some p2 ∧
      build_period_forecast "Evening" hs 2100 = some p3 ∧
      build_period_forecast "Night" hs 300 = some p4 := by
  unfold PERIOD_DEFINITIONS at h
  rw [List.mapM_cons] at h
  obtain ⟨p1, h1, h⟩ := Option.bind_eq_some.mp h
  obtain ⟨r1, hr1, h⟩ := Option.bind_eq_some.mp h
  rw [List.mapM_cons] at hr1
  obtain ⟨p2, h2, hr1⟩ := Option.bind_eq_some.mp hr1
  obtain ⟨r2, hr2, hr1⟩ := Option.bind_eq_some.mp hr1
  rw [List.mapM_cons] at hr2
  obtain ⟨p3, h3, hr2⟩ := Option.bind_eq_some.mp hr2
  obtain ⟨r3, hr3, hr2⟩ := Option.bind_eq_some.mp hr2
  rw [List.mapM_cons] at hr3
  obtain ⟨p4, h4, hr3⟩ := Option.bind_eq_some.mp hr3
  obtain ⟨r4, hr4, hr3⟩ := Option.bind_eq_some.mp hr3
  have hr4e : some ([] : List PeriodForecast) = some r4 := hr4
  rw [← Option.some.inj hr4e] at hr3
  have hr3e : p4 :: ([] : List PeriodForecast) = r3 :=
    Option.some.inj (show some (p4 :: ([] : List PeriodForecast)) = some r3 from hr3)
  rw [← hr3e] at hr2
  have hr2e : p3 :: [p4] = r2 :=
    Option.some.inj (show some (p3 :: [p4]) = some r2 from hr2)
  rw [← hr2e] at hr1
  have hr1e : p2 :: [p3, p4] = r1 :=
    Option.some.inj (show some (p2 :: [p3, p4]) = some r1 from hr1)
  rw [← hr1e] at h
  have hps : p1 :: [p2, p3, p4] = ps :=
    Option.some.inj (show some (p1 :: [p2, p3, p4]) = some ps from h)
  exact ⟨p1, p2, p3, p4, hps.symm, h1, h2, h3, h4⟩

/-- A successful `_build_period_forecast` is built from the closest hourly
entry: its label is the requested one, and temperature, summary and icon
come from that entry's fields (tempC via bare `int` with default 0,
weatherDesc via `_first_value`, weatherCode via `_safe_int` and the icon
table). -/
lemma build_period_inv (l : String) (hs : List Json) (t : Int)
    (pf : PeriodForecast) (h : build_period_forecast l hs t = some pf) :
    ∃ e, closest_hour hs t = some e ∧ pf.label = l ∧
      (∃ tg, dictGet e "tempC" = some tg ∧ pyInt (tg.getD (.num 0)) = some pf.temp_c) ∧
      (∃ wdv, dictGet e "weatherDesc" = some wdv ∧ first_value wdv = some pf.summary) ∧
      (∃ wcv, dictGet e "weatherCode" = some wcv ∧
        pf.icon = icon_name_for_code (some (safe_int wcv 0))) := by
  unfold build_period_forecast at h
  obtain ⟨e, he, h⟩ := Option.bind_eq_some.mp h
  obtain ⟨tg, htg, h⟩ := Option.bind_eq_some.mp h
  obtain ⟨temp, htemp, h⟩ := Option.bind_eq_some.mp h
  obtain ⟨wdv, hwdv, h⟩ := Option.bind_eq_some.mp h
  obtain ⟨summary, hsum, h⟩ := Option.bind_eq_some.mp h
  obtain ⟨wcv, hwcv, h⟩ := Option.bind_eq_some.mp h
  have hpf := Option.some.inj h
  rw [← hpf]
  exact ⟨e, he, rfl, ⟨tg, htg, htemp⟩, ⟨wdv, hwdv, hsum⟩, ⟨wcv, hwcv, rfl⟩⟩

/-- Invariant of the `_closest_hour` scanning loop: the final pick either
is the incoming best (when nothing beats its delta) or the first entry of
the remaining list attaining the overall strict minimum. -/
lemma goCH_spec :
    ∀ (l : List Json) (target : Int) (best : Json) (bd : Nat) (r : Json),
      goCH l target best (some bd) = some r →
      (r = best ∧ ∀ x ∈ l, bd ≤ timeDeltaOf target x) ∨
      (∃ i, ∃ hi : i < l.length, r = l.get ⟨i, hi⟩ ∧ timeDeltaOf target r < bd ∧
        (∀ j (hj : j < l.length),
          timeDeltaOf target r ≤ timeDeltaOf target (l.get ⟨j, hj⟩)) ∧
        (∀ j (hj : j < l.length), j < i →
          timeDeltaOf target r < timeDeltaOf target (l.get ⟨j, hj⟩))) := by
  intro l
  induction l with
  | nil =>
    intro target best bd r h
    left
    have h2 : some best = some r := h
    exact ⟨(Option.some.inj h2).symm, by simp⟩
  | cons e rest ih =>
    intro target best bd r h
    unfold goCH at h
    obtain ⟨g, hg, h⟩ := Option.bind_eq_some.mp h
    have hd : (safe_int g 0 - target).natAbs = timeDeltaOf target e := by
      cases e with
      | obj fs =>
        have hge : lookupField fs "time" = g :=
          Option.some.inj (show some (lookupField fs "time") = some g from hg)
        simp only [timeDeltaOf, dictItem]
        rw [hge]
      | null => exact absurd hg (by simp [dictGet])
      | bool b => exact absurd hg (by simp [dictGet])
      | num n => exact absurd hg (by simp [dictGet])
      | str s => exact absurd hg (by simp [dictGet])
      | arr xs => exact absurd hg (by simp [dictGet])
    by_cases hlt : (safe_int g 0 - target).natAbs < bd
    · have h2 : goCH rest target e (some ((safe_int g 0 - target).natAbs)) = some r := by
        have h3 : (if (safe_int g 0 - target).natAbs < bd then
            goCH rest target e (some ((safe_int g 0 - target).natAbs))
          else goCH rest target best (some bd)) = some r := h
        rw [if_pos hlt] at h3
        exact h3
      rcases ih target e ((safe_int g 0 - target).natAbs) r h2 with ⟨hre, hall⟩ | hmin
      · right
        refine ⟨0, by simp, by simpa using hre, ?_, ?_, ?_⟩
        · rw [hre]
          exact hd ▸ hlt
        · intro j hj
          cases j with
          | zero =>
            rw [hre]
            exact Nat.le_refl _
          | succ j2 =>
            have hmem : rest.get ⟨j2, Nat.lt_of_succ_lt_succ hj⟩ ∈ rest :=
              List.get_mem rest _ _
            have hle := hall _ hmem
            rw [hre]
            exact hd ▸ hle
        · intro j hj hj0
          exact absurd hj0 (Nat.not_lt_zero j)
      · obtain ⟨i, hi, hre, hlt2, hmin2, hstrict⟩ := hmin
        right
        refine ⟨i + 1, Nat.succ_lt_succ hi, hre, ?_, ?_, ?_⟩
        · exact Nat.lt_trans hlt2 (hd ▸ hlt)
        · intro j hj
          cases j with
          | zero =>
            have : timeDeltaOf target r < timeDeltaOf target e := hd ▸ hlt2
            exact Nat.le_of_lt this
          | succ j2 => exact hmin2 j2 (Nat.lt_of_succ_lt_succ hj)
        · intro j hj hji
          cases j with
          | zero => exact hd ▸ hlt2
          | succ j2 =>
            exact hstrict j2 (Nat.lt_of_succ_lt_succ hj) (Nat.lt_of_succ_lt_succ hji)
    · have h2 : goCH rest target best (some bd) = some r := by
        have h3 : (if (safe_int g 0 - target).natAbs < bd then
            goCH rest target e (some ((safe_int g 0 - target).natAbs))
          else goCH rest target best (some bd)) = some r := h
        rw [if_neg hlt] at h3
        exact h3
      have hbd : bd ≤ timeDeltaOf target e := hd ▸ Nat.le_of_not_lt hlt
      rcases ih target best bd r h2 with ⟨hre, hall⟩ | hmin
      · left
        refine ⟨hre, ?_⟩
        intro x hx
        rcases List.mem_cons.mp hx with hxe | hxr
        · rw [hxe]; exact hbd
        · exact hall x hxr
      · obtain ⟨i, hi, hre, hlt2, hmin2, hstrict⟩ := hmin
        right
        refine ⟨i + 1, Nat.succ_lt_succ hi, hre, hlt2, ?_, ?_⟩
        · intro j hj
          cases j with
          | zero => exact Nat.le_of_lt (Nat.lt_of_lt_of_le hlt2 hbd)
          | succ j2 => exact hmin2 j2 (Nat.lt_of_succ_lt_succ hj)
        · intro j hj hji
          cases j with
          | zero => exact Nat.lt_of_lt_of_le hlt2 hbd
          | succ j2 =>
            exact hstrict j2 (Nat.lt_of_succ_lt_succ hj) (Nat.lt_of_succ_lt_succ hji)

/-- `_closest_hour` on a nonempty list picks the first entry whose `time`
distance to the target is minimal. -/
lemma closest_hour_spec (hs : List Json) (target : Int) (e : Json)
    (hne : hs ≠ []) (h : closest_hour hs target = some e) :
    ∃ i, ∃ hi : i < hs.length, e = hs.get ⟨i, hi⟩ ∧
      (∀ j (hj : j < hs.length),
        timeDeltaOf target e ≤ timeDeltaOf target (hs.get ⟨j, hj⟩)) ∧
      (∀ j (hj : j < hs.length), j < i →
        timeDeltaOf target e < timeDeltaOf target (hs.get ⟨j, hj⟩)) := by
  cases hs with
  | nil => exact absurd rfl hne
  | cons first rest =>
    unfold closest_hour at h
    unfold goCH at h
    obtain ⟨g, hg, h⟩ := Option.bind_eq_some.mp h
    have hd : (safe_int g 0 - target).natAbs = timeDeltaOf target first := by
      cases first with
      | obj fs =>
        have hge : lookupField fs "time" = g :=
          Option.some.inj (show some (lookupField fs "time") = some g from hg)
        simp only [timeDeltaOf, dictItem]
        rw [hge]
      | null => exact absurd hg (by simp [dictGet])
      | bool b => exact absurd hg (by simp [dictGet])
      | num n => exact absurd hg (by simp [dictGet])
      | str s => exact absurd hg (by simp [dictGet])
      | arr xs => exact absurd hg (by simp [dictGet])
    have h2 : goCH rest target first (some ((safe_int g 0 - target).natAbs)) = some e := h
    rcases goCH_spec rest target first ((safe_int g 0 - target).natAbs) e h2 with
      ⟨hre, hall⟩ | hmin
    · refine ⟨0, by simp, by simpa using hre, ?_, ?_⟩
      · intro j hj
        cases j with
        | zero =>
          rw [hre]
          exact Nat.le_refl _
        | succ j2 =>
          have hmem : rest.get ⟨j2, Nat.lt_of_succ_lt_succ hj⟩ ∈ rest :=
            List.get_mem rest _ _
          have hle := hall _ hmem
          rw [hre]
          exact hd ▸ hle
      · intro j hj hj0
        exact absurd hj0 (Nat.not_lt_zero j)
    · obtain ⟨i, hi, hre, hlt2, hmin2, hstrict⟩ := hmin
      refine ⟨i + 1, Nat.succ_lt_succ hi, hre, ?_, ?_⟩
      · intro j hj
        cases j with
        | zero => exact Nat.le_of_lt (hd ▸ hlt2)
        | succ j2 => exact hmin2 j2 (Nat.lt_of_succ_lt_succ hj)
      · intro j hj hji
        cases j with
        | zero => exact hd ▸ hlt2
        | succ j2 =>
          exact hstrict j2 (Nat.lt_of_succ_lt_succ hj) (Nat.lt_of_succ_lt_succ hji)

/-- C4: for every daily object that normalizes successfully, `periods` has
exactly 4 entries in the fixed order Morning, Noon, Evening, Night, each
built by `_build_period_forecast` from the day's hourly list at the fixed
targets 0900/1500/2100/0300; the entry chosen by `_closest_hour` is the
first hourly item minimizing the numeric `time` distance to the target
(unparsable or missing times count as 0); on an empty hourly list the
period defaults to temperature 0, empty summary and the default icon; and
each built period takes its temperature, summary and icon from the fields
of the chosen entry. -/
theorem c4_periods_shape (day : Json) (df : DailyForecast)
    (h : parse_daily day = some df) :
    df.periods.length = 4 ∧
    df.periods.map (fun p => p.label) = ["Morning", "Noon", "Evening", "Night"] ∧
    (∃ hs, hourlyListOf day = some hs ∧
      PERIOD_DEFINITIONS.mapM (fun lt => build_period_forecast lt.1 hs lt.2) =
        some df.periods) ∧
    (∀ (hs : List Json) (target : Int) (e : Json), hs ≠ [] →
      closest_hour hs target = some e →
      ∃ i, ∃ hi : i < hs.length, e = hs.get ⟨i, hi⟩ ∧
        (∀ j (hj : j < hs.length),
          timeDeltaOf target e ≤ timeDeltaOf target (hs.get ⟨j, hj⟩)) ∧
        (∀ j (hj : j < hs.length), j < i →
          timeDeltaOf target e < timeDeltaOf target (hs.get ⟨j, hj⟩))) ∧
    (∀ (l : String) (t : Int), build_period_forecast l [] t = some ⟨l, 0, "", "skc"⟩) ∧
    (∀ (l : String) (hs : List Json) (t : Int) (pf : PeriodForecast),
      build_period_forecast l hs t = some pf →
      ∃ e, closest_hour hs t = some e ∧ pf.label = l ∧
        (∃ tg, dictGet e "tempC" = some tg ∧
          pyInt (tg.getD (.num 0)) = some pf.temp_c) ∧
        (∃ wdv, dictGet e "weatherDesc" = some wdv ∧
          first_value wdv = some pf.summary) ∧
        (∃ wcv, dictGet e "weatherCode" = some wcv ∧
          pf.icon = icon_name_for_code (some (safe_int wcv 0)))) := by
  obtain ⟨hs, hhs, hmap⟩ := parse_daily_periods day df h
  obtain ⟨p1, p2, p3, p4, hps, h1, h2, h3, h4⟩ := mapM_periods_inv hs df.periods hmap
  obtain ⟨e1, -, hl1, -⟩ := build_period_inv _ _ _ _ h1
  obtain ⟨e2, -, hl2, -⟩ := build_period_inv _ _ _ _ h2
  obtain ⟨e3, -, hl3, -⟩ := build_period_inv _ _ _ _ h3
  obtain ⟨e4, -, hl4, -⟩ := build_period_inv _ _ _ _ h4
  refine ⟨?_, ?_, ⟨hs, hhs, hmap⟩, ?_, fun l t => rfl,
    fun l hs2 t pf hb => build_period_inv l hs2 t pf hb⟩
  · rw [hps]
    rfl
  · rw [hps]
    simp [hl1, hl2, hl3, hl4]
  · intro hs2 target e hne hce
    exact closest_hour_spec hs2 target e hne hce

/-- Witness for C4: the sample day yields the four labels in order. -/
theorem c4_periods_shape_witness :
    sampleDailyForecast.periods.map (fun p => p.label) =
      ["Morning", "Noon", "Evening", "Night"] :=
  (c4_periods_shape sampleDay sampleDailyForecast (by rfl)).2.1

/-! ### C6 and C10: determinism and label-keyed rendering -/

/-- Everything in a snapshot except the generation timestamp. -/
def stripGen (s : WeatherSnapshot) : String × CurrentConditions × List DailyForecast :=
  (s.location_name, s.current, s.forecast)

/-- The 600×800 grayscale canvas of the default configuration. -/
def cfg600 : RenderCfg := ⟨600, 800, true⟩

/-- A concrete text-measurement environment for witnesses. -/
def envZero : TextEnv := fun _ _ _ => 0

/-- The looked-up cell always carries the requested label. -/
lemma periodCell_label (ps : List PeriodForecast) (l : String) :
    (periodCell ps l).label = l := by
  unfold periodCell
  cases hf : ps.reverse.find? (fun p => p.label = l) with
  | none => rfl
  | some p => simpa using List.find?_some hf

/-- C6: normalization and rendering are deterministic two-run properties.
Normalizing one payload at two different clock instants yields snapshots
that agree on everything except `generated_at`; rendering one snapshot
twice under one canvas configuration and font environment yields equal
outputs. -/
theorem c6_two_run_determinism :
    (∀ (loc : String) (t1 t2 : DateTimeV) (p : Json),
      (parse_payload loc t1 p).map stripGen = (parse_payload loc t2 p).map stripGen) ∧
    (∀ (cfg : RenderCfg) (env : TextEnv) (s : WeatherSnapshot)
       (r1 r2 : RenderedImage),
      r1 = renderImage cfg env s → r2 = renderImage cfg env s → r1 = r2) := by
  constructor
  · intro loc t1 t2 p
    unfold parse_payload
    cases hc : parse_current p with
    | none => rfl
    | some c =>
      cases hf : parse_forecast p with
      | none => rfl
      | some f => rfl
  · intro cfg env s r1 r2 h1 h2
    rw [h1, h2]

/-- Witness for C6: two normalizations of the sample payload at different
instants agree modulo the timestamp, and two renders of the sample
snapshot coincide. -/
theorem c6_two_run_determinism_witness :
    (parse_payload "Test City" sampleNow
        (samplePayload (.str "2") (.str "116"))).map stripGen =
      (parse_payload "Test City" ⟨⟨2000, 6, 15⟩, ⟨23, 59⟩⟩
        (samplePayload (.str "2") (.str "116"))).map stripGen ∧
    renderImage cfg600 envZero (sampleSnapshot 2 "few") =
      renderImage cfg600 envZero (sampleSnapshot 2 "few") :=
  ⟨c6_two_run_determinism.1 "Test City" sampleNow ⟨⟨2000, 6, 15⟩, ⟨23, 59⟩⟩
     (samplePayload (.str "2") (.str "116")),
   c6_two_run_determinism.2 cfg600 envZero (sampleSnapshot 2 "few") _ _ rfl rfl⟩

/-- C10: the forecast grid looks period cells up by label, not position:
every day-column always gets exactly 4 cells carrying the fixed labels; a
label no period carries is drawn as the synthesized default cell
(temperature 0, empty summary, icon "skc"); and the rendered image depends
on each day's periods only through its per-label cells, so re-ordered or
extra periods with the same label-cells render identically. -/
theorem c10_forecast_lookup_by_label :
    (∀ ps : List PeriodForecast,
      (forecastCells ps).length = 4 ∧
      (forecastCells ps).map (fun p => p.label) = FORECAST_PERIOD_LABELS) ∧
    (∀ (ps : List PeriodForecast) (l : String), (∀ p ∈ ps, p.label ≠ l) →
      periodCell ps l = ⟨l, 0, "", "skc"⟩) ∧
    (∀ (cfg : RenderCfg) (env : TextEnv) (loc : String) (gen : DateTimeV)
       (cur : CurrentConditions) (f1 f2 : List DailyForecast),
      f1.map (fun d => (d.date, forecastCells d.periods)) =
        f2.map (fun d => (d.date, forecastCells d.periods)) →
      renderImage cfg env ⟨loc, gen, cur, f1⟩ = renderImage cfg env ⟨loc, gen, cur, f2⟩) := by
  refine ⟨fun ps => ⟨rfl, ?_⟩, fun ps l hnone => ?_, fun cfg env loc gen cur f1 f2 h => ?_⟩
  · simp [forecastCells, FORECAST_PERIOD_LABELS, periodCell_label]
  · unfold periodCell
    have hf : ps.reverse.find? (fun p => p.label = l) = none := by
      rw [List.find?_eq_none]
      intro p hp
      simpa using hnone p (List.mem_reverse.mp hp)
    rw [hf]
  · simp only [renderImage]
    rw [h]

/-- Witness for C10: the empty period list synthesizes the default Morning
cell, and a day whose periods are stored in reverse order renders exactly
like the sample day. -/
theorem c10_forecast_lookup_by_label_witness :
    periodCell [] "Morning" = ⟨"Morning", 0, "", "skc"⟩ ∧
    renderImage cfg600 envZero
        ⟨"Test City", sampleNow, (sampleSnapshot 2 "few").current,
         [⟨⟨2026, 1, 1⟩, -1, 4, "Cloudy", "bkn", 45, ⟨8, 30⟩, ⟨17, 48⟩,
           [⟨"Night", 1, "Cloudy", "bkn"⟩,
            ⟨"Evening", 2, "Cloudy", "bkn"⟩,
            ⟨"Noon", 3, "Cloudy", "bkn"⟩,
            ⟨"Morning", 2, "Cloudy", "bkn"⟩]⟩]⟩ =
      renderImage cfg600 envZero
        ⟨"Test City", sampleNow, (sampleSnapshot 2 "few").current,
         [sampleDailyForecast]⟩ :=
  ⟨c10_forecast_lookup_by_label.2.1 [] "Morning" (fun p hp => absurd hp (by simp)),
   c10_forecast_lookup_by_label.2.2 cfg600 envZero "Test City" sampleNow
     (sampleSnapshot 2 "few").current _ _ (by rfl)⟩

/-! ### C1: which fields are lenient -/

/-- Binding a `none` computation yields `none` (a raised exception inside a
Python expression propagates). -/
lemma bind_none_of {α β : Type} {x : Option α} (h : x = none) (f : α → Option β) :
    x.bind f = none := by
  rw [h]
  rfl

/-- A current-conditions object with every strict integer field left as a
parameter (weatherDesc, weatherCode, wind direction and observation time
held at the sample values). -/
def currentRaw6 (tv fl hu wk pr cc : Json) : Json :=
  .obj [ ("temp_C", tv),
         ("FeelsLikeC", fl),
         ("humidity", hu),
         ("weatherDesc", .arr [.obj [("value", .str "Partly cloudy")]]),
         ("weatherCode", .str "116"),
         ("windspeedKmph", wk),
         ("winddir16Point", .str "NW"),
         ("pressure", pr),
         ("localObsDateTime", .str "2026-01-01 12:30 PM"),
         ("cloudcover", cc) ]

/-- A well-formed payload around a given current-conditions object. -/
def payloadWithCurrent (cur : Json) : Json :=
  .obj [ ("current_condition", .arr [cur]), ("weather", .arr [sampleDay]) ]

/-- A well-formed payload around a given daily object. -/
def payloadWithDay (day : Json) : Json :=
  .obj [ ("current_condition", .arr [sampleCurrentRaw (.str "2") (.str "116")]),
         ("weather", .arr [day]) ]

/-- The sample day with `mintempC` / `maxtempC` left as parameters. -/
def dayWithMinMax (mn mx : Json) : Json :=
  .obj [ ("date", .str "2026-01-01"),
         ("mintempC", mn),
         ("maxtempC", mx),
         ("astronomy", .arr [.obj [("sunrise", .str "08:30 AM"),
                                   ("sunset", .str "05:48 PM")]]),
         ("hourly", .arr [ sampleHour "300" "1" "20",
                           sampleHour "900" "2" "45",
                           sampleHour "1200" "3" "30",
                           sampleHour "2100" "2" "10" ]) ]

/-- The sample day with a single given hourly entry. -/
def dayWithHour (h : Json) : Json :=
  .obj [ ("date", .str "2026-01-01"),
         ("mintempC", .str "-1"),
         ("maxtempC", .str "4"),
         ("astronomy", .arr [.obj [("sunrise", .str "08:30 AM"),
                                   ("sunset", .str "05:48 PM")]]),
         ("hourly", .arr [h]) ]

/-- The sample day with a given astronomy object. -/
def dayWithAstro (a : Json) : Json :=
  .obj [ ("date", .str "2026-01-01"),
         ("mintempC", .str "-1"),
         ("maxtempC", .str "4"),
         ("astronomy", .arr [a]),
         ("hourly", .arr [ sampleHour "300" "1" "20",
                           sampleHour "900" "2" "45",
                           sampleHour "1200" "3" "30",
                           sampleHour "2100" "2" "10" ]) ]

/-- An hourly entry with a given `tempC` value. -/
def hourWithTemp (t : Json) : Json :=
  .obj [ ("time", .str "900"), ("tempC", t), ("chanceofrain", .str "45"),
         ("weatherDesc", .arr [.obj [("value", .str "Cloudy")]]),
         ("weatherCode", .str "119") ]

/-- An hourly entry with no `tempC` key at all. -/
def hourNoTemp : Json :=
  .obj [ ("time", .str "900"), ("chanceofrain", .str "45"),
         ("weatherDesc", .arr [.obj [("value", .str "Cloudy")]]),
         ("weatherCode", .str "119") ]

/-- A failing `parse_current_ints` aborts the whole normalization of a
payload built around its current-conditions object. -/
lemma payload_abort_of_ints (raw : Json)
    (hints : parse_current_ints raw = none) :
    parse_payload "Test City" sampleNow (payloadWithCurrent raw) = none := by
  have hcur : parse_current (payloadWithCurrent raw) = none := bind_none_of hints _
  exact bind_none_of hcur _

/-- A failing forecast pass aborts the whole normalization. -/
lemma parse_payload_none_of_forecast (loc : String) (now : DateTimeV) (p : Json)
    (hf : parse_forecast p = none) : parse_payload loc now p = none := by
  unfold parse_payload
  cases hc : parse_current p with
  | none => rfl
  | some c => exact bind_none_of hf _

/-- A failing `parse_daily` aborts the whole normalization of a payload
built around its daily object. -/
lemma payload_abort_of_day (day : Json) (hd : parse_daily day = none) :
    parse_payload "Test City" sampleNow (payloadWithDay day) = none := by
  apply parse_payload_none_of_forecast
  have hm : [day].mapM parse_daily = none := by
    rw [List.mapM_cons, hd]
    rfl
  exact hm

/-- C1 counterexample: the sample payload has a well-formed top level
(`current_condition` and `weather` both present) and normalizes fully with
`temp_C = "2"`, but making that single field the non-numeric string "abc"
makes the whole normalization raise — it does not default just that
field. -/
theorem c1_lenient_parsing_counterexample :
    parse_payload "Test City" sampleNow (samplePayload (.str "2") (.str "116")) =
      some (sampleSnapshot 2 "few") ∧
    parse_payload "Test City" sampleNow (samplePayload (.str "abc") (.str "116")) =
      none :=
  ⟨rfl, rfl⟩

/-- C1 amended: leniency is per-field, not global.  For every string `v`
that `int(...)` rejects — STRICT fields, each aborting the whole
normalization: a malformed temp_C, FeelsLikeC, humidity, windspeedKmph,
pressure, cloudcover, mintempC or maxtempC; a missing temp_C; a
present-but-malformed hourly tempC; a present-but-unparsable astronomy
sunrise; and a weatherDesc list whose first element is a dict whose
"value" is not a string.  LENIENT fields, each defaulting without
aborting: a malformed weatherCode (only the icon falls back to "skc");
a missing or empty or non-dict-non-string weatherDesc (summary "");
a missing astronomy/sunrise/sunset (06:00 / 18:00); a malformed
chanceofrain entry (skipped in the max) and a missing one (counts 0);
a malformed or missing hourly `time` (counts 0, selection proceeds);
and a MISSING hourly tempC (defaults to 0). -/
theorem c1_lenient_fields_amended (v : String) (hv : pyInt (Json.str v) = none) :
    parse_payload "Test City" sampleNow (payloadWithCurrent
      (currentRaw6 (.str v) (.str "0") (.str "70") (.str "12") (.str "1020") (.str "40"))) = none ∧
    parse_payload "Test City" sampleNow (payloadWithCurrent
      (currentRaw6 (.str "2") (.str v) (.str "70") (.str "12") (.str "1020") (.str "40"))) = none ∧
    parse_payload "Test City" sampleNow (payloadWithCurrent
      (currentRaw6 (.str "2") (.str "0") (.str v) (.str "12") (.str "1020") (.str "40"))) = none ∧
    parse_payload "Test City" sampleNow (payloadWithCurrent
      (currentRaw6 (.str "2") (.str "0") (.str "70") (.str v) (.str "1020") (.str "40"))) = none ∧
    parse_payload "Test City" sampleNow (payloadWithCurrent
      (currentRaw6 (.str "2") (.str "0") (.str "70") (.str "12") (.str v) (.str "40"))) = none ∧
    parse_payload "Test City" sampleNow (payloadWithCurrent
      (currentRaw6 (.str "2") (.str "0") (.str "70") (.str "12") (.str "1020") (.str v))) = none ∧
    parse_payload "Test City" sampleNow samplePayloadNoTemp = none ∧
    parse_payload "Test City" sampleNow
      (payloadWithDay (dayWithMinMax (.str v) (.str "4"))) = none ∧
    parse_payload "Test City" sampleNow
      (payloadWithDay (dayWithMinMax (.str "-1") (.str v))) = none ∧
    parse_payload "Test City" sampleNow
      (payloadWithDay (dayWithHour (hourWithTemp (.str v)))) = none ∧
    parse_payload "Test City" sampleNow
      (payloadWithDay (dayWithAstro
        (.obj [("sunrise", .str "not a time"), ("sunset", .str "05:48 PM")]))) = none ∧
    first_value (some (.arr [.obj [("value", .num 5)]])) = none ∧
    parse_payload "Test City" sampleNow (samplePayload (.str "2") (.str v)) =
      some (sampleSnapshot 2 "skc") ∧
    first_value none = some "" ∧
    first_value (some (.arr [])) = some "" ∧
    first_value (some (.arr [.num 5])) = some "" ∧
    parse_astronomy (.obj []) = some (⟨6, 0⟩, ⟨18, 0⟩) ∧
    max_hourly [.obj [("chanceofrain", .str v)], .obj [("chanceofrain", .str "45")]]
      "chanceofrain" = some 45 ∧
    max_hourly [(.obj [] : Json)] "chanceofrain" = some 0 ∧
    safe_int (some (.str v)) 0 = 0 ∧
    safe_int none 0 = 0 ∧
    closest_hour [.obj [("time", .str v)]] 900 = some (.obj [("time", .str v)]) ∧
    build_period_forecast "Morning" [hourNoTemp] 900 =
      some ⟨"Morning", 0, "Cloudy", "bkn"⟩ := by
  have hsv : safe_int (some (.str v)) 0 = 0 := by
    have h5 : safe_int (some (.str v)) 0 =
        (match pyInt (.str v) with | some n => n | none => 0) := rfl
    rw [h5, hv]
  refine ⟨?_, ?_, ?_, ?_, ?_, ?_, rfl, ?_, ?_, ?_, rfl, rfl, ?_, rfl, rfl, rfl, rfl,
    ?_, rfl, hsv, rfl, rfl, rfl⟩
  · apply payload_abort_of_ints
    have h0 : parse_current_ints
        (currentRaw6 (.str v) (.str "0") (.str "70") (.str "12") (.str "1020") (.str "40")) =
        (pyInt (.str v)).bind (fun t => some (t, 0, 70, 12, 1020, 40)) := rfl
    rw [h0, hv]
    rfl
  · apply payload_abort_of_ints
    have h0 : parse_current_ints
        (currentRaw6 (.str "2") (.str v) (.str "70") (.str "12") (.str "1020") (.str "40")) =
        (pyInt (.str v)).bind (fun t => some (2, t, 70, 12, 1020, 40)) := rfl
    rw [h0, hv]
    rfl
  · apply payload_abort_of_ints
    have h0 : parse_current_ints
        (currentRaw6 (.str "2") (.str "0") (.str v) (.str "12") (.str "1020") (.str "40")) =
        (pyInt (.str v)).bind (fun t => some (2, 0, t, 12, 1020, 40)) := rfl
    rw [h0, hv]
    rfl
  · apply payload_abort_of_ints
    have h0 : parse_current_ints
        (currentRaw6 (.str "2") (.str "0") (.str "70") (.str v) (.str "1020") (.str "40")) =
        (pyInt (.str v)).bind (fun t => some (2, 0, 70, t, 1020, 40)) := rfl
    rw [h0, hv]
    rfl
  · apply payload_abort_of_ints
    have h0 : parse_current_ints
        (currentRaw6 (.str "2") (.str "0") (.str "70") (.str "12") (.str v) (.str "40")) =
        (pyInt (.str v)).bind (fun t => some (2, 0, 70, 12, t, 40)) := rfl
    rw [h0, hv]
    rfl
  · apply payload_abort_of_ints
    have h0 : parse_current_ints
        (currentRaw6 (.str "2") (.str "0") (.str "70") (.str "12") (.str "1020") (.str v)) =
        (pyInt (.str v)).bind (fun t => some (2, 0, 70, 12, 1020, t)) := rfl
    rw [h0, hv]
    rfl
  · apply payload_abort_of_day
    have h0 : parse_daily_nums (dayWithMinMax (.str v) (.str "4")) =
        (pyInt (.str v)).bind (fun t => some ((⟨2026, 1, 1⟩ : DateV), t, 4)) := rfl
    have hnn : parse_daily_nums (dayWithMinMax (.str v) (.str "4")) = none := by
      rw [h0, hv]
      rfl
    exact bind_none_of hnn _
  · apply payload_abort_of_day
    have h0 : parse_daily_nums (dayWithMinMax (.str "-1") (.str v)) =
        (pyInt (.str v)).bind (fun t => some ((⟨2026, 1, 1⟩ : DateV), -1, t)) := rfl
    have hnn : parse_daily_nums (dayWithMinMax (.str "-1") (.str v)) = none := by
      rw [h0, hv]
      rfl
    exact bind_none_of hnn _
  · apply payload_abort_of_day
    have hbp : build_period_forecast "Morning" [hourWithTemp (.str v)] 900 =
        (pyInt (.str v)).bind
          (fun t => some (⟨"Morning", t, "Cloudy", "bkn"⟩ : PeriodForecast)) := rfl
    have hbpn : build_period_forecast "Morning" [hourWithTemp (.str v)] 900 = none := by
      rw [hbp, hv]
      rfl
    have hmapn : PERIOD_DEFINITIONS.mapM
        (fun lt => build_period_forecast lt.1 [hourWithTemp (.str v)] lt.2) = none :=
      bind_none_of hbpn _
    have hhn : parse_daily_hours (dayWithHour (hourWithTemp (.str v))) = none :=
      bind_none_of hmapn _
    exact bind_none_of hhn _
  · have h3 : parse_payload "Test City" sampleNow (samplePayload (.str "2") (.str v)) =
        some (sampleSnapshot 2
          (icon_name_for_code (some (safe_int (some (.str v)) 0)))) := rfl
    rw [h3, hsv]
    rfl
  · have hb1 : collectVals
        [(.obj [("chanceofrain", .str v)] : Json), .obj [("chanceofrain", .str "45")]]
        "chanceofrain" =
        (match pyInt (.str v) with
          | some val => some (val :: [45])
          | none => some [45]) := rfl
    have hb2 : collectVals
        [(.obj [("chanceofrain", .str v)] : Json), .obj [("chanceofrain", .str "45")]]
        "chanceofrain" = some [45] := by
      rw [hb1, hv]
    have hb3 : max_hourly
        [(.obj [("chanceofrain", .str v)] : Json), .obj [("chanceofrain", .str "45")]]
        "chanceofrain" =
        (collectVals
          [(.obj [("chanceofrain", .str v)] : Json), .obj [("chanceofrain", .str "45")]]
          "chanceofrain").bind (fun vals => some (maxOrZero vals)) := rfl
    rw [hb3, hb2]
    rfl

/-- Witness for C1 (amended): the whole amended statement instantiated at
the unparsable string "abc". -/
theorem c1_lenient_fields_amended_witness :
    parse_payload "Test City" sampleNow (payloadWithCurrent
      (currentRaw6 (.str "abc") (.str "0") (.str "70") (.str "12") (.str "1020") (.str "40"))) = none ∧
    parse_payload "Test City" sampleNow (payloadWithCurrent
      (currentRaw6 (.str "2") (.str "abc") (.str "70") (.str "12") (.str "1020") (.str "40"))) = none ∧
    parse_payload "Test City" sampleNow (payloadWithCurrent
      (currentRaw6 (.str "2") (.str "0") (.str "abc") (.str "12") (.str "1020") (.str "40"))) = none ∧
    parse_payload "Test City" sampleNow (payloadWithCurrent
      (currentRaw6 (.str "2") (.str "0") (.str "70") (.str "abc") (.str "1020") (.str "40"))) = none ∧
    parse_payload "Test City" sampleNow (payloadWithCurrent
      (currentRaw6 (.str "2") (.str "0") (.str "70") (.str "12") (.str "abc") (.str "40"))) = none ∧
    parse_payload "Test City" sampleNow (payloadWithCurrent
      (currentRaw6 (.str "2") (.str "0") (.str "70") (.str "12") (.str "1020") (.str "abc"))) = none ∧
    parse_payload "Test City" sampleNow samplePayloadNoTemp = none ∧
    parse_payload "Test City" sampleNow
      (payloadWithDay (dayWithMinMax (.str "abc") (.str "4"))) = none ∧
    parse_payload "Test City" sampleNow
      (payloadWithDay (dayWithMinMax (.str "-1") (.str "abc"))) = none ∧
    parse_payload "Test City" sampleNow
      (payloadWithDay (dayWithHour (hourWithTemp (.str "abc")))) = none ∧
    parse_payload "Test City" sampleNow
      (payloadWithDay (dayWithAstro
        (.obj [("sunrise", .str "not a time"), ("sunset", .str "05:48 PM")]))) = none ∧
    first_value (some (.arr [.obj [("value", .num 5)]])) = none ∧
    parse_payload "Test City" sampleNow (samplePayload (.str "2") (.str "abc")) =
      some (sampleSnapshot 2 "skc") ∧
    first_value none = some "" ∧
    first_value (some (.arr [])) = some "" ∧
    first_value (some (.arr [.num 5])) = some "" ∧
    parse_astronomy (.obj []) = some (⟨6, 0⟩, ⟨18, 0⟩) ∧
    max_hourly [.obj [("chanceofrain", .str "abc")], .obj [("chanceofrain", .str "45")]]
      "chanceofrain" = some 45 ∧
    max_hourly [(.obj [] : Json)] "chanceofrain" = some 0 ∧
    safe_int (some (.str "abc")) 0 = 0 ∧
    safe_int none 0 = 0 ∧
    closest_hour [.obj [("time", .str "abc")]] 900 = some (.obj [("time", .str "abc")]) ∧
    build_period_forecast "Morning" [hourNoTemp] 900 =
      some ⟨"Morning", 0, "Cloudy", "bkn"⟩ :=
  c1_lenient_fields_amended "abc" (by rfl)

end Screensaver
